import Mathlib

/-!
Shallow embedding of `version.ts` from the `wiremoons/version` repository
(the current revision, i.e. the first document in `src/version.ts`).

Modelling choices:
* TypeScript strings are modelled as Lean `String`.  The string operations
  used by the source (`length`, `startsWith`, `charAt(0)`, `substring(1)`,
  concatenation inside template literals) are modelled at the character level;
  JS `String.prototype.startsWith` is modelled by `jsStartsWith` (prefix test
  on the character list), and upper-casing of a single character
  (`charAt(0).toUpperCase()`) by `Char.toUpper`.
* The surrounding Deno environment (`Deno.mainModule`, `Deno.lstat`,
  `fromFileUrl`, `basename`, `Deno.version.deno`, `Deno.build.os`,
  `Deno.build.arch`, `navigator.hardwareConcurrency`) is a record `Env` of
  opaque-to-the-module services, exactly the external-interface boundary the
  source code calls out to.
* A file's modification time (`FileInfo.mtime`, a `Date | null` in Deno) is
  modelled as `Option Nat`: milliseconds since the Unix epoch (UTC), and
  `Date.prototype.toUTCString` is implemented concretely as `jsToUTCString`
  (RFC-1123 style `Www, DD Mon YYYY HH:MM:SS GMT`).
* Promise rejection is modelled by `Except JSError`; a rejection value is
  either a JS `Error` carrying a message, or any other thrown value
  (`JSError.other`), which is what `err instanceof Error` discriminates.
* The `async` structure is sequential in the source (a single `await` inside
  `try`), so the embedding is direct state-free function composition.
-/

/-- A JavaScript runtime value, as far as the module's type guard can
distinguish them: a string, or one of the representative non-string shapes. -/
inductive JSVal where
  | str (s : String)
  | num (n : Int)
  | boolean (b : Bool)
  | undef
  | obj
  deriving DecidableEq

/-- Model of the source's `isString` type guard: `typeof arg === "string"`. -/
def isString : JSVal → Bool
  | JSVal.str _ => true
  | _ => false

/-- Model of the source's `toTitleCaseFirst`.  The source returns the argument
unchanged when `!isString(str) || str.length === 0` (the catch-all branch and
the `[]` branch here), and otherwise returns
`str.charAt(0).toUpperCase() + str.substring(1)`: the first code unit
upper-cased (modelled by `Char.toUpper`) followed by the rest unchanged. -/
def toTitleCaseFirst : JSVal → JSVal
  | JSVal.str s =>
      match s.data with
      | [] => JSVal.str s
      | c :: cs => JSVal.str (String.mk (Char.toUpper c :: cs))
  | v => v

/-- String-level wrapper around `toTitleCaseFirst`, used where the source
applies it to a value statically known to be a string (`Deno.build.os`). -/
def toTitleCaseFirstStr (s : String) : String :=
  match toTitleCaseFirst (JSVal.str s) with
  | JSVal.str t => t
  | _ => s

/-- Model of JS `String.prototype.startsWith`: a prefix test on the
character sequence. -/
def jsStartsWith (s pre : String) : Bool :=
  pre.data.isPrefixOf s.data

/-- The slice of Deno `FileInfo` the source reads: the optional modification
time (`mtime : Date | null`), as milliseconds since the Unix epoch, UTC. -/
structure FileInfo where
  mtime : Option Nat
  deriving DecidableEq

/-- A value rejected by a promise: either a JS `Error` with its message, or
any non-`Error` thrown value. -/
inductive JSError where
  | error (message : String)
  | other
  deriving DecidableEq

/-- The host environment the module calls out to: module identity, file
status service, path services, and runtime/host metadata. -/
structure Env where
  mainModule : String
  lstat : String → Except Unit FileInfo
  fromFileUrl : String → String
  basename : String → String
  denoVersion : String
  buildOS : String
  buildArch : String
  hardwareConcurrency : Nat

/-- Two-digit zero padding used in the `toUTCString` rendering. -/
def pad2 (n : Nat) : String :=
  if n < 10 then "0" ++ toString n else toString n

/-- Three-letter English weekday names, `0 = Sunday`. -/
def weekdayName : Nat → String
  | 0 => "Sun" | 1 => "Mon" | 2 => "Tue" | 3 => "Wed"
  | 4 => "Thu" | 5 => "Fri" | _ => "Sat"

/-- Three-letter English month names, `1 = January`. -/
def monthName : Nat → String
  | 1 => "Jan" | 2 => "Feb" | 3 => "Mar" | 4 => "Apr"
  | 5 => "May" | 6 => "Jun" | 7 => "Jul" | 8 => "Aug"
  | 9 => "Sep" | 10 => "Oct" | 11 => "Nov" | _ => "Dec"

/-- Convert a count of days since 1970-01-01 into a civil `(year, month, day)`
date in the proleptic Gregorian calendar (standard era-based algorithm). -/
def civilFromDays (days : Nat) : Nat × Nat × Nat :=
  let z := days + 719468
  let era := z / 146097
  let doe := z % 146097
  let yoe := (doe - doe / 1460 + doe / 36524 - doe / 146096) / 365
  let y := yoe + era * 400
  let doy := doe - (365 * yoe + yoe / 4 - yoe / 100)
  let mp := (5 * doy + 2) / 153
  let d := doy - (153 * mp + 2) / 5 + 1
  let m := if mp < 10 then mp + 3 else mp - 9
  (if m ≤ 2 then y + 1 else y, m, d)

/-- Model of JS `Date.prototype.toUTCString` on a timestamp given as
milliseconds since the Unix epoch: the RFC-1123 style rendering
`Www, DD Mon YYYY HH:MM:SS GMT`. -/
def jsToUTCString (ms : Nat) : String :=
  let days := ms / 86400000
  let secs := ms % 86400000 / 1000
  let ymd := civilFromDays days
  weekdayName ((days + 4) % 7) ++ ", " ++ pad2 ymd.2.2 ++ " " ++
    monthName ymd.2.1 ++ " " ++ toString ymd.1 ++ " " ++
    pad2 (secs / 3600) ++ ":" ++ pad2 (secs % 3600 / 60) ++ ":" ++
    pad2 (secs % 60) ++ " GMT"

/-- Model of the source's `getFileModTime`.  Mirrors the source line by line:
empty-path rejection, remote-scheme rejection, `file:` URL conversion (the
source reassigns `filePath`, modelled by the shadowing `let`), then the
`Deno.lstat` call whose success returns either the formatted `mtime` or the
literal fallback string, and whose failure is rejected with a path-bearing
message. -/
def getFileModTime (env : Env) (filePath : String) : Except JSError String :=
  if filePath.length < 1 then
    Except.error (JSError.error "UNKNOWN as no file path available.")
  else if jsStartsWith filePath "https://" || jsStartsWith filePath "http://" then
    Except.error (JSError.error "UNKNOWN due to remote execution.")
  else
    let filePath := if jsStartsWith filePath "file:" then env.fromFileUrl filePath else filePath
    match env.lstat filePath with
    | Except.ok fileInfo =>
        Except.ok (match fileInfo.mtime with
          | some t => jsToUTCString t
          | none => "UNKNOWN no file modification time available.")
    | Except.error _ =>
        Except.error (JSError.error ("UNKNOWN Deno.lstat failed for " ++ filePath))

/-- The source's `VersionOptions` interface: the four resolved string
fields. -/
structure VersionOptions where
  version : String
  copyrightName : String
  licenseUrl : String
  crYear : String
  deriving DecidableEq

/-- The `Partial<VersionOptions>` argument of `version()`: every field
optional; `none` models an absent (or `undefined`) property, `some v` a
present one, including explicit falsy values such as `some ""`. -/
structure VersionOptionsOpt where
  version : Option String := none
  copyrightName : Option String := none
  licenseUrl : Option String := none
  crYear : Option String := none
  deriving DecidableEq

/-- The destructuring with defaults at the top of the source's `version()`:
`verData ?? {}` and one default literal per field; the default is taken
exactly when the property is absent. -/
def mergeOptions (verData : Option VersionOptionsOpt) : VersionOptions :=
  let o := verData.getD {}
  { version := o.version.getD "0.0.1 [DEFAULT]",
    copyrightName := o.copyrightName.getD "Deno Dinosaur <deno@deno.land> [DEFAULT]",
    licenseUrl := o.licenseUrl.getD "https://github.com/<username_here>/ [DEFAULT]",
    crYear := o.crYear.getD "2021 [DEFAULT]" }

/-- The source's `catch (err)` arm inside `version()`:
`err instanceof Error ? err.message : "UNKNOWN unspecified error."`. -/
def fallbackText : JSError → String
  | JSError.error message => message
  | JSError.other => "UNKNOWN unspecified error."

/-- The settled value of the `fileModTime` variable in `version()`: the
resolved string when the lookup fulfils, and the `catch` arm's text when it
rejects. -/
def settleModTime : Except JSError String → String
  | Except.ok s => s
  | Except.error err => fallbackText err

/-- The first line of the template literal returned by `version()` (the
piece before the modification-time line). -/
def bannerHead (env : Env) (o : VersionOptions) : String :=
  "\n Application '" ++ env.basename env.mainModule ++ "' is version '" ++
    o.version ++ "'."

/-- The lines of the template literal returned by `version()` after the
modification-time line. -/
def bannerTail (env : Env) (o : VersionOptions) : String :=
  "\n Running Deno version '" ++ env.denoVersion ++ "' on '" ++
    toTitleCaseFirstStr env.buildOS ++ " [" ++ env.buildArch ++ " with " ++
    toString env.hardwareConcurrency ++ " CPU cores]'." ++
  "\n Copyright (c) " ++ o.crYear ++ " " ++ o.copyrightName ++ "." ++
  "\n" ++
  "\n For licenses and further information visit:" ++
  "\n   - " ++ o.licenseUrl ++
  "\n   - https://deno.land/" ++
  "\n   "

/-- Everything `version()` does after the `await`: resolve `fileModTime` from
the settled lookup (the `try`/`catch`), merge options, and return the template
literal.  The literal pieces are split at line starts, matching the template's
text byte for byte. -/
def versionFrom (env : Env) (modTime : Except JSError String)
    (verData : Option VersionOptionsOpt) : String :=
  let o := mergeOptions verData
  bannerHead env o ++ "\n Last modified on: " ++ settleModTime modTime ++
    bannerTail env o

/-- Model of the source's `version()`: look the modification time of
`Deno.mainModule` up (the `try`/`catch` around the `await` is the `match`
inside `settleModTime`) and assemble the banner. -/
def version (env : Env) (verData : Option VersionOptionsOpt) : String :=
  versionFrom env (getFileModTime env env.mainModule) verData

/-- Substring containment, the notion used by the spec's "produces a string
containing the literal substrings" properties. -/
def strContains (s sub : String) : Prop :=
  ∃ a b, s = a ++ sub ++ b

/-- The value of the `fileModTime` variable of `version()` once the lookup
has settled. -/
def resolvedFileModTime (env : Env) : String :=
  settleModTime (getFileModTime env env.mainModule)

/-- Modelled from the spec: the fixed multi-line template of section 6 /
claim C2, as an ordered list of lines — leading blank line, filename/version
line, "Last modified on" line, runtime/OS/arch/core-count line, copyright
line (year then holder), blank line, "For licenses" header, caller-supplied
license URL line, fixed reference URL line, trailing indentation line.
Written from the spec's template description, to be compared with the
`version` definition taken from the source. -/
def specBannerLines (env : Env) (modText : String) (o : VersionOptions) :
    List String :=
  ["",
   " Application '" ++ env.basename env.mainModule ++ "' is version '" ++
     o.version ++ "'.",
   " Last modified on: " ++ modText,
   " Running Deno version '" ++ env.denoVersion ++ "' on '" ++
     toTitleCaseFirstStr env.buildOS ++ " [" ++ env.buildArch ++ " with " ++
     toString env.hardwareConcurrency ++ " CPU cores]'.",
   " Copyright (c) " ++ o.crYear ++ " " ++ o.copyrightName ++ ".",
   "",
   " For licenses and further information visit:",
   "   - " ++ o.licenseUrl,
   "   - https://deno.land/",
   "   "]

/-- Modelled from the spec: the template lines joined with newlines. -/
def specBanner (env : Env) (modText : String) (o : VersionOptions) : String :=
  String.intercalate "\n" (specBannerLines env modText o)

/-- The customised options used by the source's own `import.meta.main` block
and by the spec's end-to-end property. -/
def exampleOptions : VersionOptionsOpt :=
  { version := some "1.0.6",
    copyrightName := some "John Doe <example.com>",
    licenseUrl := some "https://github.com/example/my_application/",
    crYear := some "2022" }

/-- Appending the empty string on the left is the identity. -/
theorem str_empty_append (x : String) : "" ++ x = x := by
  simp

/-- Appending the empty string on the right is the identity. -/
theorem str_append_empty (x : String) : x ++ "" = x := by
  simp

/-- Merging the newline separator into the filename line. -/
theorem nl_application (x : String) :
    "\n" ++ (" Application '" ++ x) = "\n Application '" ++ x := by
  rw [← String.append_assoc, show ("\n" : String) ++ " Application \'" = "\n Application \'" from rfl]

/-- Merging the newline separator into the modification-time line. -/
theorem nl_last_modified (x : String) :
    "\n" ++ (" Last modified on: " ++ x) = "\n Last modified on: " ++ x := by
  rw [← String.append_assoc, show ("\n" : String) ++ " Last modified on: " = "\n Last modified on: " from rfl]

/-- Merging the newline separator into the runtime line. -/
theorem nl_running (x : String) :
    "\n" ++ (" Running Deno version '" ++ x) = "\n Running Deno version '" ++ x := by
  rw [← String.append_assoc, show ("\n" : String) ++ " Running Deno version \'" = "\n Running Deno version \'" from rfl]

/-- Merging the newline separator into the copyright line. -/
theorem nl_copyright (x : String) :
    "\n" ++ (" Copyright (c) " ++ x) = "\n Copyright (c) " ++ x := by
  rw [← String.append_assoc, show ("\n" : String) ++ " Copyright (c) " = "\n Copyright (c) " from rfl]

/-- Merging the newline separator into the licenses header line. -/
theorem nl_licenses (x : String) :
    "\n" ++ (" For licenses and further information visit:" ++ x) =
      "\n For licenses and further information visit:" ++ x := by
  rw [← String.append_assoc, show ("\n" : String) ++ " For licenses and further information visit:" = "\n For licenses and further information visit:" from rfl]

/-- Merging the newline separator into the license URL line. -/
theorem nl_dash (x : String) :
    "\n" ++ ("   - " ++ x) = "\n   - " ++ x := by
  rw [← String.append_assoc, show ("\n" : String) ++ "   - " = "\n   - " from rfl]

/-- Merging the newline separator into the fixed reference URL line. -/
theorem nl_denoland (x : String) :
    "\n" ++ ("   - https://deno.land/" ++ x) = "\n   - https://deno.land/" ++ x := by
  rw [← String.append_assoc, show ("\n" : String) ++ "   - https://deno.land/" = "\n   - https://deno.land/" from rfl]

/-- Merging the newline separator into the trailing indentation. -/
theorem nl_trailing : ("\n" : String) ++ "   " = "\n   " := rfl

/-- Splitting the leading space off the modification-time line. -/
theorem sp_last_modified (x : String) :
    "\n " ++ ("Last modified on: " ++ x) = "\n Last modified on: " ++ x := by
  rw [← String.append_assoc, show ("\n " : String) ++ "Last modified on: " = "\n Last modified on: " from rfl]

/-- A successful JS prefix test bounds the tested string's length from below
by the pattern's length. -/
theorem jsStartsWith_le_length (s p : String) (h : jsStartsWith s p = true) :
    p.length ≤ s.length := by
  unfold jsStartsWith at h
  rw [List.isPrefixOf_iff_prefix] at h
  exact h.length_le

/-- A string that starts with `file:` starts with neither remote scheme. -/
theorem jsStartsWith_file_not_remote (s : String)
    (h : jsStartsWith s "file:" = true) :
    jsStartsWith s "https://" = false ∧ jsStartsWith s "http://" = false := by
  unfold jsStartsWith at *
  rw [List.isPrefixOf_iff_prefix] at h
  obtain ⟨t, ht⟩ := h
  constructor
  · by_contra hc
    rw [Bool.not_eq_false, List.isPrefixOf_iff_prefix] at hc
    obtain ⟨u, hu⟩ := hc
    rw [← ht] at hu
    simp [String.data] at hu
  · by_contra hc
    rw [Bool.not_eq_false, List.isPrefixOf_iff_prefix] at hc
    obtain ⟨u, hu⟩ := hc
    rw [← ht] at hu
    simp [String.data] at hu

/-- Reduction of `getFileModTime` past its first two guards: on a non-empty,
non-remote path it converts a `file:` URL if needed and consults the file
status service. -/
theorem getFileModTime_lookup (env : Env) (p : String) (h1 : ¬ p.length < 1)
    (h2 : jsStartsWith p "https://" = false)
    (h3 : jsStartsWith p "http://" = false) :
    getFileModTime env p =
      match env.lstat (if jsStartsWith p "file:" then env.fromFileUrl p else p) with
      | Except.ok fileInfo =>
          Except.ok (match fileInfo.mtime with
            | some t => jsToUTCString t
            | none => "UNKNOWN no file modification time available.")
      | Except.error _ =>
          Except.error (JSError.error ("UNKNOWN Deno.lstat failed for " ++
            (if jsStartsWith p "file:" then env.fromFileUrl p else p))) := by
  unfold getFileModTime
  rw [if_neg h1, h2, h3]
  rfl

/-- Sample environment: a `file:` main module whose status lookup succeeds
with the modification time 2025-08-25T13:18:17Z. -/
def envOk : Env :=
  { mainModule := "file:///app/cli.ts",
    lstat := fun _ => Except.ok { mtime := some 1756127897000 },
    fromFileUrl := fun _ => "/app/cli.ts",
    basename := fun _ => "cli.ts",
    denoVersion := "2.0.0",
    buildOS := "darwin",
    buildArch := "x86_64",
    hardwareConcurrency := 8 }

/-- Sample environment whose status lookup succeeds without a modification
time. -/
def envNoMtime : Env :=
  { envOk with lstat := fun _ => Except.ok { mtime := none } }

/-- Sample environment whose status lookup always fails. -/
def envLstatFails : Env :=
  { envOk with lstat := fun _ => Except.error () }

/-- C8: on the empty path, `getFileModTime` rejects with the "no file path
available" message for every environment, so the result is fixed before any
remote-scheme check, URL conversion or filesystem lookup could run. -/
theorem c8_empty_path (env : Env) :
    getFileModTime env "" =
      Except.error (JSError.error "UNKNOWN as no file path available.") := rfl

/-- C9: `toTitleCaseFirst` passes non-string and empty-string inputs through
unchanged, and on a non-empty string upper-cases exactly the first character
and leaves the remainder unchanged; in particular `""` maps to `""` and
`"darwin"` to `"Darwin"`. -/
theorem c9_title_case_first :
    (∀ v : JSVal, isString v = false → toTitleCaseFirst v = v) ∧
    toTitleCaseFirst (JSVal.str "") = JSVal.str "" ∧
    (∀ (c : Char) (cs : List Char),
      toTitleCaseFirst (JSVal.str (String.mk (c :: cs))) =
        JSVal.str (String.mk (Char.toUpper c :: cs))) ∧
    toTitleCaseFirst (JSVal.str "darwin") = JSVal.str "Darwin" := by
  refine ⟨?_, rfl, fun c cs => rfl, by decide⟩
  intro v hv
  cases v with
  | str s => simp [isString] at hv
  | num n => rfl
  | boolean b => rfl
  | undef => rfl
  | obj => rfl

/-- Witness for C9: the non-string input `42` is returned unchanged, and
`"darwin"` becomes `"Darwin"`. -/
theorem c9_witness :
    isString (JSVal.num 42) = false ∧
    toTitleCaseFirst (JSVal.num 42) = JSVal.num 42 ∧
    toTitleCaseFirst (JSVal.str "darwin") = JSVal.str "Darwin" :=
  ⟨rfl, c9_title_case_first.1 (JSVal.num 42) rfl, c9_title_case_first.2.2.2⟩

/-- C5: a path starting with a remote network-URL scheme is rejected with the
"remote execution" message; the conclusion holds for every environment, so no
filesystem lookup can influence the result. -/
theorem c5_remote_scheme (env : Env) (p : String)
    (h : jsStartsWith p "https://" = true ∨ jsStartsWith p "http://" = true) :
    getFileModTime env p =
      Except.error (JSError.error "UNKNOWN due to remote execution.") := by
  have hne : ¬ p.length < 1 := by
    cases h with
    | inl hh =>
        have hl := jsStartsWith_le_length p "https://" hh
        have h8 : ("https://" : String).length = 8 := rfl
        omega
    | inr hh =>
        have hl := jsStartsWith_le_length p "http://" hh
        have h7 : ("http://" : String).length = 7 := rfl
        omega
  unfold getFileModTime
  rw [if_neg hne]
  cases h with
  | inl hh => rw [hh]; rfl
  | inr hh => rw [hh]; simp

/-- Witness for C5: a concrete remote URL is rejected with the "remote
execution" message. -/
theorem c5_witness :
    (jsStartsWith "https://deno.land/x/version/mod.ts" "https://" = true ∨
      jsStartsWith "https://deno.land/x/version/mod.ts" "http://" = true) ∧
    getFileModTime envOk "https://deno.land/x/version/mod.ts" =
      Except.error (JSError.error "UNKNOWN due to remote execution.") :=
  ⟨Or.inl rfl, c5_remote_scheme envOk "https://deno.land/x/version/mod.ts" (Or.inl rfl)⟩

/-- C4 counterexample: on a local path whose status lookup succeeds but
carries no modification timestamp, `getFileModTime` SUCCEEDS, returning the
literal fallback string — it does not fail as the claim states. -/
theorem c4_counterexample :
    getFileModTime envNoMtime "/app/cli.ts" =
      Except.ok "UNKNOWN no file modification time available." ∧
    (getFileModTime envNoMtime "/app/cli.ts").isOk = true := ⟨rfl, rfl⟩

/-- C4 (amended): for every local path on which the status lookup succeeds,
`getFileModTime` succeeds — returning the timestamp rendered as an
RFC-1123-style UTC string when one is present, and the literal fallback
string "UNKNOWN no file modification time available." when none is. -/
theorem c4_lookup_success (env : Env) (p : String) (info : FileInfo)
    (h1 : ¬ p.length < 1) (h2 : jsStartsWith p "https://" = false)
    (h3 : jsStartsWith p "http://" = false)
    (h4 : env.lstat (if jsStartsWith p "file:" then env.fromFileUrl p else p) =
      Except.ok info) :
    getFileModTime env p =
      Except.ok (match info.mtime with
        | some t => jsToUTCString t
        | none => "UNKNOWN no file modification time available.") := by
  rw [getFileModTime_lookup env p h1 h2 h3, h4]

/-- Witness for C4 (amended): on a concrete environment the lookup succeeds
and the timestamp 1756127897000 ms renders as the RFC-1123-style string. -/
theorem c4_witness :
    envOk.lstat "/app/cli.ts" = Except.ok { mtime := some 1756127897000 } ∧
    getFileModTime envOk "/app/cli.ts" =
      Except.ok "Mon, 25 Aug 2025 13:18:17 GMT" := by
  refine ⟨rfl, ?_⟩
  have h := c4_lookup_success envOk "/app/cli.ts" { mtime := some 1756127897000 }
    (by decide) (by decide) (by decide) (by rfl)
  rw [h]
  rfl

/-- C6: a `file:` URL is converted to the equivalent plain path before the
lookup; when that plain path names an existing local file, the call on the
URL succeeds and agrees with the call on the plain path. -/
theorem c6_file_url (env : Env) (url : String) (info : FileInfo)
    (hfile : jsStartsWith url "file:" = true)
    (hp1 : ¬ (env.fromFileUrl url).length < 1)
    (hp2 : jsStartsWith (env.fromFileUrl url) "https://" = false)
    (hp3 : jsStartsWith (env.fromFileUrl url) "http://" = false)
    (hp4 : jsStartsWith (env.fromFileUrl url) "file:" = false)
    (hstat : env.lstat (env.fromFileUrl url) = Except.ok info) :
    (getFileModTime env url).isOk = true ∧
    getFileModTime env url = getFileModTime env (env.fromFileUrl url) := by
  obtain ⟨hr1, hr2⟩ := jsStartsWith_file_not_remote url hfile
  have hu1 : ¬ url.length < 1 := by
    have hl := jsStartsWith_le_length url "file:" hfile
    have h5 : ("file:" : String).length = 5 := rfl
    omega
  rw [getFileModTime_lookup env url hu1 hr1 hr2,
      getFileModTime_lookup env (env.fromFileUrl url) hp1 hp2 hp3,
      hfile, hp4]
  simp [hstat, Except.isOk, Except.toBool]

/-- Witness for C6: on a concrete environment the `file:` URL call succeeds
and agrees with the plain-path call. -/
theorem c6_witness :
    jsStartsWith "file:///app/cli.ts" "file:" = true ∧
    envOk.lstat (envOk.fromFileUrl "file:///app/cli.ts") =
      Except.ok { mtime := some 1756127897000 } ∧
    (getFileModTime envOk "file:///app/cli.ts").isOk = true ∧
    getFileModTime envOk "file:///app/cli.ts" =
      getFileModTime envOk (envOk.fromFileUrl "file:///app/cli.ts") := by
  have h := c6_file_url envOk "file:///app/cli.ts" { mtime := some 1756127897000 }
    rfl (by decide) rfl rfl rfl rfl
  exact ⟨rfl, rfl, h.1, h.2⟩

/-- C7: when the status lookup itself fails on a non-empty non-remote path,
`getFileModTime` rejects with the lookup-failure message built from the
(converted) path, and that message contains the path. -/
theorem c7_lookup_failure (env : Env) (p : String)
    (h1 : ¬ p.length < 1) (h2 : jsStartsWith p "https://" = false)
    (h3 : jsStartsWith p "http://" = false)
    (h4 : env.lstat (if jsStartsWith p "file:" then env.fromFileUrl p else p) =
      Except.error ()) :
    getFileModTime env p =
      Except.error (JSError.error ("UNKNOWN Deno.lstat failed for " ++
        (if jsStartsWith p "file:" then env.fromFileUrl p else p))) ∧
    strContains ("UNKNOWN Deno.lstat failed for " ++
        (if jsStartsWith p "file:" then env.fromFileUrl p else p))
      (if jsStartsWith p "file:" then env.fromFileUrl p else p) := by
  refine ⟨?_, ⟨"UNKNOWN Deno.lstat failed for ", "", ?_⟩⟩
  · rw [getFileModTime_lookup env p h1 h2 h3, h4]
  · rw [str_append_empty]

/-- Witness for C7: a nonexistent plain path is rejected with the lookup
failure message that contains the path. -/
theorem c7_witness :
    envLstatFails.lstat "/tmp/missing.txt" = Except.error () ∧
    getFileModTime envLstatFails "/tmp/missing.txt" =
      Except.error
        (JSError.error "UNKNOWN Deno.lstat failed for /tmp/missing.txt") := by
  refine ⟨rfl, ?_⟩
  exact (c7_lookup_failure envLstatFails "/tmp/missing.txt"
    (by decide) (by decide) (by decide) (by rfl)).1

/-- Rechunking of the modification-time line around the fixed non-Error
fallback text. -/
theorem ch_unspecified (x : String) :
    "\n Last modified on: " ++ ("UNKNOWN unspecified error." ++
      ("\n Running Deno version '" ++ x)) =
    "\n Last modified on: UNKNOWN unspecified error.\n" ++
      (" Running Deno version '" ++ x) := by
  repeat rw [← String.append_assoc]
  congr 1

/-- C1: `version()` never fails outward — whenever the modification-time
lookup rejects, `version()` still returns the banner (built by the catch arm
from the rejected value), with the reason text substituted inline on the
"Last modified on" line. -/
theorem c1_never_fails (env : Env) (vd : Option VersionOptionsOpt) (e : JSError)
    (h : getFileModTime env env.mainModule = Except.error e) :
    version env vd = versionFrom env (Except.error e) vd ∧
    strContains (version env vd) ("Last modified on: " ++ fallbackText e) := by
  have hv : version env vd = versionFrom env (Except.error e) vd := by
    unfold version
    rw [h]
  refine ⟨hv, ?_⟩
  rw [hv]
  refine ⟨bannerHead env (mergeOptions vd) ++ "\n ",
    bannerTail env (mergeOptions vd), ?_⟩
  simp only [versionFrom, settleModTime, String.append_assoc, sp_last_modified]

/-- Witness for C1: with a failing status service, the rejected reason text
appears inline in the returned banner. -/
theorem c1_witness :
    getFileModTime envLstatFails envLstatFails.mainModule =
      Except.error (JSError.error "UNKNOWN Deno.lstat failed for /app/cli.ts") ∧
    strContains (version envLstatFails none)
      ("Last modified on: " ++
        fallbackText (JSError.error "UNKNOWN Deno.lstat failed for /app/cli.ts")) :=
  ⟨rfl, (c1_never_fails envLstatFails none
    (JSError.error "UNKNOWN Deno.lstat failed for /app/cli.ts") rfl).2⟩

/-- C10: inside `version()`, an Error rejection contributes its message to
the "Last modified on" line, and a non-Error rejection contributes the
literal text "UNKNOWN unspecified error." instead. -/
theorem c10_catch_arm (env : Env) (vd : Option VersionOptionsOpt) (msg : String)
    (e : JSError) (h : getFileModTime env env.mainModule = Except.error e) :
    version env vd = versionFrom env (Except.error e) vd ∧
    strContains (versionFrom env (Except.error (JSError.error msg)) vd)
      ("\n Last modified on: " ++ msg ++ "\n") ∧
    strContains (versionFrom env (Except.error JSError.other) vd)
      "\n Last modified on: UNKNOWN unspecified error.\n" := by
  refine ⟨?_, ?_, ?_⟩
  · unfold version
    rw [h]
  · refine ⟨bannerHead env (mergeOptions vd),
      " Running Deno version '" ++ env.denoVersion ++ "' on '" ++
        toTitleCaseFirstStr env.buildOS ++ " [" ++ env.buildArch ++ " with " ++
        toString env.hardwareConcurrency ++ " CPU cores]'." ++
      "\n Copyright (c) " ++ (mergeOptions vd).crYear ++ " " ++
        (mergeOptions vd).copyrightName ++ "." ++
      "\n" ++
      "\n For licenses and further information visit:" ++
      "\n   - " ++ (mergeOptions vd).licenseUrl ++
      "\n   - https://deno.land/" ++
      "\n   ", ?_⟩
    simp only [versionFrom, settleModTime, fallbackText, bannerTail,
      String.append_assoc, nl_running]
  · refine ⟨bannerHead env (mergeOptions vd),
      " Running Deno version '" ++ env.denoVersion ++ "' on '" ++
        toTitleCaseFirstStr env.buildOS ++ " [" ++ env.buildArch ++ " with " ++
        toString env.hardwareConcurrency ++ " CPU cores]'." ++
      "\n Copyright (c) " ++ (mergeOptions vd).crYear ++ " " ++
        (mergeOptions vd).copyrightName ++ "." ++
      "\n" ++
      "\n For licenses and further information visit:" ++
      "\n   - " ++ (mergeOptions vd).licenseUrl ++
      "\n   - https://deno.land/" ++
      "\n   ", ?_⟩
    simp only [versionFrom, settleModTime, fallbackText, bannerTail,
      String.append_assoc, ch_unspecified]

/-- Witness for C10: a concrete Error rejection is substituted into the
banner by the catch arm. -/
theorem c10_witness :
    getFileModTime envLstatFails envLstatFails.mainModule =
      Except.error (JSError.error "UNKNOWN Deno.lstat failed for /app/cli.ts") ∧
    version envLstatFails none =
      versionFrom envLstatFails
        (Except.error (JSError.error "UNKNOWN Deno.lstat failed for /app/cli.ts"))
        none :=
  ⟨rfl, (c10_catch_arm envLstatFails none ""
    (JSError.error "UNKNOWN Deno.lstat failed for /app/cli.ts") rfl).1⟩

/-- The merged version field of the example options. -/
theorem mergeOptions_example_version :
    (mergeOptions (some exampleOptions)).version = "1.0.6" := rfl

/-- The merged copyright-name field of the example options. -/
theorem mergeOptions_example_name :
    (mergeOptions (some exampleOptions)).copyrightName = "John Doe <example.com>" := rfl

/-- The merged license-URL field of the example options. -/
theorem mergeOptions_example_url :
    (mergeOptions (some exampleOptions)).licenseUrl =
      "https://github.com/example/my_application/" := rfl

/-- The merged copyright-year field of the example options. -/
theorem mergeOptions_example_crYear :
    (mergeOptions (some exampleOptions)).crYear = "2022" := rfl

/-- The merged version field with no options supplied. -/
theorem mergeOptions_none_version :
    (mergeOptions none).version = "0.0.1 [DEFAULT]" := rfl

/-- Rechunking of the filename line around the version substring of the
example options. -/
theorem ch_version (x : String) :
    "' is version '" ++ ("1.0.6" ++ ("'." ++ x)) =
      "' is " ++ ("version '1.0.6'" ++ ("." ++ x)) := by
  repeat rw [← String.append_assoc]
  congr 1

/-- Rechunking of the copyright line of the example options around the
copyright substring. -/
theorem ch_copyright (x : String) :
    "\n Copyright (c) " ++ ("2022" ++ (" " ++ ("John Doe <example.com>" ++
      ("." ++ x)))) =
    "\n " ++ ("Copyright (c) 2022 John Doe <example.com>." ++ x) := by
  repeat rw [← String.append_assoc]
  congr 1

/-- C2: `version()` returns exactly the fixed multi-line template (the
spec-modelled `specBanner`, joining the documented lines in fixed order with
newlines), and the end-to-end example options yield the three literal
substrings. -/
theorem c2_fixed_template (env : Env) (vd : Option VersionOptionsOpt) :
    version env vd = specBanner env (resolvedFileModTime env) (mergeOptions vd) ∧
    strContains (version env (some exampleOptions)) "version '1.0.6'" ∧
    strContains (version env (some exampleOptions))
      "Copyright (c) 2022 John Doe <example.com>." ∧
    strContains (version env (some exampleOptions))
      "https://github.com/example/my_application/" := by
  refine ⟨?_, ?_, ?_, ?_⟩
  · simp only [version, versionFrom, specBanner, specBannerLines,
      resolvedFileModTime, bannerHead, bannerTail, String.intercalate,
      String.intercalate.go, str_empty_append, String.append_assoc,
      nl_application, nl_last_modified, nl_running, nl_copyright, nl_licenses,
      nl_dash, nl_denoland, nl_trailing]
  · refine ⟨"\n Application '" ++ env.basename env.mainModule ++ "' is ",
      "." ++ "\n Last modified on: " ++ resolvedFileModTime env ++
        bannerTail env (mergeOptions (some exampleOptions)), ?_⟩
    simp only [version, versionFrom, bannerHead, resolvedFileModTime,
      mergeOptions_example_version, String.append_assoc, ch_version]
  · refine ⟨"\n Application '" ++ env.basename env.mainModule ++
      "' is version '" ++ "1.0.6" ++ "'." ++ "\n Last modified on: " ++
      resolvedFileModTime env ++ "\n Running Deno version '" ++
      env.denoVersion ++ "' on '" ++ toTitleCaseFirstStr env.buildOS ++
      " [" ++ env.buildArch ++ " with " ++
      toString env.hardwareConcurrency ++ " CPU cores]'." ++ "\n ",
      "\n" ++ "\n For licenses and further information visit:" ++ "\n   - " ++
        "https://github.com/example/my_application/" ++
        "\n   - https://deno.land/" ++ "\n   ", ?_⟩
    simp only [version, versionFrom, bannerHead, bannerTail,
      resolvedFileModTime, mergeOptions_example_version,
      mergeOptions_example_name, mergeOptions_example_url,
      mergeOptions_example_crYear, String.append_assoc, ch_copyright]
  · refine ⟨"\n Application '" ++ env.basename env.mainModule ++
      "' is version '" ++ "1.0.6" ++ "'." ++ "\n Last modified on: " ++
      resolvedFileModTime env ++ "\n Running Deno version '" ++
      env.denoVersion ++ "' on '" ++ toTitleCaseFirstStr env.buildOS ++
      " [" ++ env.buildArch ++ " with " ++
      toString env.hardwareConcurrency ++ " CPU cores]'." ++
      "\n Copyright (c) " ++ "2022" ++ " " ++ "John Doe <example.com>" ++
      "." ++ "\n" ++ "\n For licenses and further information visit:" ++
      "\n   - ",
      "\n   - https://deno.land/" ++ "\n   ", ?_⟩
    simp only [version, versionFrom, bannerHead, bannerTail,
      resolvedFileModTime, mergeOptions_example_version,
      mergeOptions_example_name, mergeOptions_example_url,
      mergeOptions_example_crYear, String.append_assoc]

/-- C3: the options merge is field-wise — a present field (even one bound to
the empty string) overrides, a missing field takes its documented default
literal; a missing argument behaves as the empty object; `version()` is
assembled from exactly the merged fields; and the no-argument call's output
contains the default sentinel "0.0.1 [DEFAULT]". -/
theorem c3_merge_defaults (env : Env) (o : VersionOptionsOpt) (s : String) :
    (o.version = some s → (mergeOptions (some o)).version = s) ∧
    (o.version = none → (mergeOptions (some o)).version = "0.0.1 [DEFAULT]") ∧
    (o.copyrightName = some s → (mergeOptions (some o)).copyrightName = s) ∧
    (o.copyrightName = none →
      (mergeOptions (some o)).copyrightName =
        "Deno Dinosaur <deno@deno.land> [DEFAULT]") ∧
    (o.licenseUrl = some s → (mergeOptions (some o)).licenseUrl = s) ∧
    (o.licenseUrl = none →
      (mergeOptions (some o)).licenseUrl =
        "https://github.com/<username_here>/ [DEFAULT]") ∧
    (o.crYear = some s → (mergeOptions (some o)).crYear = s) ∧
    (o.crYear = none → (mergeOptions (some o)).crYear = "2021 [DEFAULT]") ∧
    mergeOptions none = mergeOptions (some {}) ∧
    version env (some o) =
      bannerHead env (mergeOptions (some o)) ++ "\n Last modified on: " ++
        resolvedFileModTime env ++ bannerTail env (mergeOptions (some o)) ∧
    strContains (version env none) "0.0.1 [DEFAULT]" := by
  refine ⟨?_, ?_, ?_, ?_, ?_, ?_, ?_, ?_, rfl, rfl, ?_⟩
  · intro h; simp [mergeOptions, h]
  · intro h; simp [mergeOptions, h]
  · intro h; simp [mergeOptions, h]
  · intro h; simp [mergeOptions, h]
  · intro h; simp [mergeOptions, h]
  · intro h; simp [mergeOptions, h]
  · intro h; simp [mergeOptions, h]
  · intro h; simp [mergeOptions, h]
  · refine ⟨"\n Application '" ++ env.basename env.mainModule ++
      "' is version '",
      "'." ++ "\n Last modified on: " ++ resolvedFileModTime env ++
        bannerTail env (mergeOptions none), ?_⟩
    simp only [version, versionFrom, bannerHead, resolvedFileModTime,
      mergeOptions_none_version, String.append_assoc]

/-- Witness for C3: an explicit empty-string version overrides the default,
and the no-argument call contains the default sentinel. -/
theorem c3_witness :
    ((({ version := some "" } : VersionOptionsOpt)).version = some "") ∧
    (mergeOptions (some { version := some "" })).version = "" ∧
    strContains (version envOk none) "0.0.1 [DEFAULT]" :=
  ⟨rfl, (c3_merge_defaults envOk { version := some "" } "").1 rfl,
   (c3_merge_defaults envOk { version := some "" } "").2.2.2.2.2.2.2.2.2.2⟩
